import Mathlib

/-!
Verification of the `general_scraper` repository: a shallow embedding of
`app/scraper/scraper.py` (the Selenium `Scraper` lifecycle wrapper) and
`app/utils/logging_setup.py` (the logging bootstrap), with theorems settling
the specification's claims about them.

External collaborators (the Selenium driver library, the filesystem and the
Python logging facade) are modelled as oracles: each external call's outcome
is an explicit `Except` parameter, so every execution path of the source is
a case of the Lean definitions.
-/

/-- Python exceptions relevant to `scraper.py`.  `webDriver` stands for
selenium's `WebDriverException`; `driverInit` and `driverShutdown` are the
repository's `DriverInitializationError` and `DriverShutdownError`, each
wrapping its cause (`raise ... from e`); `other` is any exception that is
not a `WebDriverException` (and not one of the wrapper's own errors). -/
inductive PyExc where
  | webDriver (msg : String)
  | driverInit (msg : String) (cause : PyExc)
  | driverShutdown (msg : String) (cause : PyExc)
  | other (msg : String)
deriving DecidableEq, Repr

/-- Observable events of a `Scraper` method call: log records emitted through
`self.logger`, and the external calls made (`ChromeService(...)`,
`webdriver.Chrome(...)`, `driver.quit()`), plus an event marking each
invocation of `Scraper.stop`. -/
inductive Event where
  | logWarning (msg : String)
  | logInfo (msg : String)
  | logError (msg : String)
  | logCritical (msg : String)
  | serviceInit
  | chromeInit
  | quitCall
  | stopCall
deriving DecidableEq, Repr

/-- A constructed `ChromeService` handle; the source passes
`executable_path=self.driver_path` when a path is set (scraper.py lines 66-69). -/
structure ChromeService where
  executable_path : Option String
deriving DecidableEq, Repr

/-- An opaque `webdriver.Chrome` handle, identified by a number. -/
abbrev Driver : Type := Nat

/-- `selenium.webdriver.chrome.options.Options`: the argument list built by
`add_argument` and the `headless` property (scraper.py lines 82-92). -/
structure Options where
  arguments : List String
  headless : Bool
deriving DecidableEq, Repr

/-- `Options()` constructor: no arguments, headless off. -/
def Options.init : Options := { arguments := [], headless := false }

/-- `options.add_argument(a)` appends an argument. -/
def Options.add_argument (o : Options) (a : String) : Options :=
  { o with arguments := o.arguments ++ [a] }

/-- The `Scraper` instance state: the three configuration fields set in
`__init__` (scraper.py lines 44-53) and the two private handles
(`self._driver`, `self._service`, lines 55-56).  The Python `float`
`implicit_wait` is modelled as a rational number. -/
structure Scraper where
  driver_path : Option String
  headless : Bool
  implicit_wait : ℚ
  driver : Option Driver
  service : Option ChromeService
deriving DecidableEq

/-- `Scraper.__init__(driver_path, headless, implicit_wait)`: stores the
configuration and starts with no driver and no service. -/
def Scraper.init (driver_path : Option String) (headless : Bool)
    (implicit_wait : ℚ) : Scraper :=
  { driver_path := driver_path, headless := headless,
    implicit_wait := implicit_wait, driver := none, service := none }

/-- Outcomes of the external calls a single `start`/`stop` execution can
make, decided by the environment: `ChromeService(...)` construction,
`webdriver.Chrome(...)` construction, `driver.implicitly_wait(...)`, and
`driver.quit()`. -/
structure Env where
  serviceOutcome : Except PyExc Unit
  chromeOutcome : Except PyExc Driver
  waitOutcome : Except PyExc Unit
  quitOutcome : Except PyExc Unit

/-- `Scraper._configure_options` (scraper.py lines 75-92): three fixed
arguments; when `self.headless`, set the `headless` property and add
`--disable-gpu`. -/
def Scraper.configure_options (s : Scraper) : Options :=
  let options := Options.init
  let options := options.add_argument "--disable-infobars"
  let options := options.add_argument "--disable-dev-shm-usage"
  let options := options.add_argument "--no-sandbox"
  if s.headless then
    let options : Options := { options with headless := true }
    options.add_argument "--disable-gpu"
  else
    options

/-- `Scraper._configure_service` (scraper.py lines 58-73): construct a
`ChromeService` (with `executable_path` when `driver_path` is set); a
`WebDriverException` is caught, logged, and re-raised as
`DriverInitializationError` wrapping it; any other exception propagates
unchanged.  Returns the raised exception or the updated state, with the
trace of events. -/
def Scraper.configure_service (s : Scraper) (svcOutcome : Except PyExc Unit) :
    Except PyExc Unit × Scraper × List Event :=
  match svcOutcome with
  | .ok () =>
      (.ok (), { s with service := some { executable_path := s.driver_path } },
       [.serviceInit])
  | .error e =>
      match e with
      | .webDriver m =>
          let msg := "Error al configurar ChromeService: " ++ m
          (.error (.driverInit msg (.webDriver m)), s, [.serviceInit, .logError msg])
      | e => (.error e, s, [.serviceInit])

/-- `Scraper.stop` (scraper.py lines 121-138): if no driver, do nothing.
Otherwise call `quit()`; a `WebDriverException` is caught, logged, and
re-raised as `DriverShutdownError` wrapping it; any other exception
propagates unchanged; in every case the `finally` block clears both
`_driver` and `_service`. -/
def Scraper.stop (s : Scraper) (quitOutcome : Except PyExc Unit) :
    Except PyExc Unit × Scraper × List Event :=
  match s.driver with
  | none => (.ok (), s, [.stopCall])
  | some _ =>
      match quitOutcome with
      | .ok () =>
          (.ok (), { s with driver := none, service := none },
           [.stopCall, .quitCall, .logInfo "Navegador cerrado correctamente."])
      | .error e =>
          match e with
          | .webDriver m =>
              let msg := "Error al cerrar el navegador: " ++ m
              (.error (.driverShutdown msg (.webDriver m)),
               { s with driver := none, service := none },
               [.stopCall, .quitCall, .logError msg])
          | e =>
              (.error e, { s with driver := none, service := none },
               [.stopCall, .quitCall])

/-- `Scraper.start` (scraper.py lines 94-119): if a driver already exists,
warn and return it.  Otherwise configure the service, build the options,
construct the driver, apply the implicit wait, and return the driver.  Only
a `WebDriverException` is caught by the `except` clause; it is logged,
`self.stop()` is run for cleanup, and `DriverInitializationError` wrapping
the cause is raised — unless the cleanup `stop()` itself raises, in which
case that exception propagates instead.  Exceptions that are not
`WebDriverException` (including the `DriverInitializationError` raised
inside `_configure_service`) propagate unchanged. -/
def Scraper.start (s : Scraper) (env : Env) :
    Except PyExc Driver × Scraper × List Event :=
  match s.driver with
  | some d => (.ok d, s, [.logWarning "El navegador ya está iniciado."])
  | none =>
      match s.configure_service env.serviceOutcome with
      | (.error e, s1, tr1) => (.error e, s1, tr1)
      | (.ok (), s1, tr1) =>
          let _options := s1.configure_options
          match env.chromeOutcome with
          | .error e =>
              match e with
              | .webDriver m =>
                  let msg := "Error al iniciar el navegador: " ++ m
                  let cleanup := s1.stop env.quitOutcome
                  match cleanup with
                  | (.ok (), s2, tr2) =>
                      (.error (.driverInit msg (.webDriver m)), s2,
                       tr1 ++ [.chromeInit, .logCritical msg] ++ tr2)
                  | (.error e2, s2, tr2) =>
                      (.error e2, s2, tr1 ++ [.chromeInit, .logCritical msg] ++ tr2)
              | e => (.error e, s1, tr1 ++ [.chromeInit])
          | .ok d =>
              let s2 := { s1 with driver := some d }
              match env.waitOutcome with
              | .ok () =>
                  (.ok d, s2,
                   tr1 ++ [.chromeInit, .logInfo "Navegador iniciado con éxito."])
              | .error e =>
                  match e with
                  | .webDriver m =>
                      let msg := "Error al iniciar el navegador: " ++ m
                      let cleanup := s2.stop env.quitOutcome
                      match cleanup with
                      | (.ok (), s3, tr2) =>
                          (.error (.driverInit msg (.webDriver m)), s3,
                           tr1 ++ [.chromeInit, .logCritical msg] ++ tr2)
                      | (.error e2, s3, tr2) =>
                          (.error e2, s3, tr1 ++ [.chromeInit, .logCritical msg] ++ tr2)
                  | e => (.error e, s2, tr1 ++ [.chromeInit])

/-- `Scraper.__exit__` (scraper.py lines 149-169): call `stop()`; if it
raises, that exception propagates out of `__exit__` (the `logger.error` and
`return False` lines are not reached).  Otherwise, if the scope body raised
(`exc_type` set), log it, and return `False` so the exception is not
suppressed.  The body's exception info is `excInfo`. -/
def Scraper.exitScope (s : Scraper) (quitOutcome : Except PyExc Unit)
    (excInfo : Option PyExc) : Except PyExc Bool × Scraper × List Event :=
  match s.stop quitOutcome with
  | (.error e, s2, tr) => (.error e, s2, tr)
  | (.ok (), s2, tr) =>
      match excInfo with
      | some _ => (.ok false, s2, tr ++ [.logError "Excepción en el bloque with"])
      | none => (.ok false, s2, tr)

/-- The host language's `with`-statement exit semantics applied to
`Scraper.__exit__`: if `__exit__` itself raises, its exception propagates
to the caller (replacing the body's); if it returns `True` a body exception
is suppressed; if it returns `False` the body exception (if any)
propagates.  Result: the exception the caller sees, the final state, and
the exit path's trace. -/
def withExit (s : Scraper) (quitOutcome : Except PyExc Unit)
    (bodyExc : Option PyExc) : Option PyExc × Scraper × List Event :=
  match s.exitScope quitOutcome bodyExc with
  | (.error e, s2, tr) => (some e, s2, tr)
  | (.ok suppress, s2, tr) =>
      match bodyExc with
      | some e => (if suppress then none else some e, s2, tr)
      | none => (none, s2, tr)

/-- One lifecycle operation on a `Scraper`, with its environment. -/
inductive ScraperOp where
  | opStart (env : Env)
  | opStop (q : Except PyExc Unit)

/-- Run a sequence of `start`/`stop` calls, threading the instance state
and discarding results and traces. -/
def runOps (s : Scraper) : List ScraperOp → Scraper
  | [] => s
  | op :: rest =>
      let s2 := match op with
        | .opStart env => (s.start env).2.1
        | .opStop q => (s.stop q).2.1
      runOps s2 rest

/-- Count the warnings in a trace. -/
def countWarnings (tr : List Event) : Nat :=
  (tr.filter fun e => match e with | .logWarning _ => true | _ => false).length

/-- Count the `stop()` invocations in a trace. -/
def countStopCalls (tr : List Event) : Nat :=
  (tr.filter fun e => match e with | .stopCall => true | _ => false).length

/-! ## Embedding of `app/utils/logging_setup.py` -/

/-- `LOG_DIR_NAME` (logging_setup.py line 20). -/
def LOG_DIR_NAME : String := "logs"

/-- `LOG_FILE_NAME` (line 21). -/
def LOG_FILE_NAME : String := "application.log"

/-- `LOG_MAX_BYTES` (line 27): `10 * 1024 * 1024`. -/
def LOG_MAX_BYTES : Nat := 10 * 1024 * 1024

/-- `LOG_BACKUP_COUNT` (line 28). -/
def LOG_BACKUP_COUNT : Nat := 5

/-- `LOG_ENCODING` (line 29). -/
def LOG_ENCODING : String := "utf-8"

/-- The formatter entry of the configuration dictionary. -/
structure FormatterCfg where
  format : String
  datefmt : String
  validate : Bool
deriving DecidableEq, Repr

/-- A handler entry of the configuration dictionary.  Keys present only for
one of the two handlers are optional fields. -/
structure HandlerCfg where
  cls : String
  level : String
  formatter : String
  filename : Option String := none
  encoding : Option String := none
  maxBytes : Option Nat := none
  backupCount : Option Nat := none
  delay : Option Bool := none
  stream : Option String := none
deriving DecidableEq, Repr

/-- A logger entry of the configuration dictionary. -/
structure LoggerCfg where
  handlers : List String := []
  level : String
  propagate : Bool
deriving DecidableEq, Repr

/-- The dictionary returned by `get_logging_config`, with each mapping as
an association list in source order. -/
structure LoggingConfig where
  version : Nat
  disable_existing_loggers : Bool
  formatters : List (String × FormatterCfg)
  handlers : List (String × HandlerCfg)
  loggers : List (String × LoggerCfg)
deriving DecidableEq, Repr

/-- `get_logging_config(log_file_path)` (logging_setup.py lines 61-112):
the static configuration dictionary. -/
def get_logging_config (log_file_path : String) : LoggingConfig :=
  { version := 1,
    disable_existing_loggers := false,
    formatters :=
      [("standard",
        { format := "%(asctime)s.%(msecs)03d [%(levelname)-8s] %(name)s:%(funcName)s:%(lineno)d - %(message)s",
          datefmt := "%Y-%m-%dT%H:%M:%S%z",
          validate := true })],
    handlers :=
      [("rotating_file",
        { cls := "logging.handlers.RotatingFileHandler",
          level := "INFO",
          formatter := "standard",
          filename := some log_file_path,
          encoding := some LOG_ENCODING,
          maxBytes := some LOG_MAX_BYTES,
          backupCount := some LOG_BACKUP_COUNT,
          delay := some true }),
       ("console",
        { cls := "logging.StreamHandler",
          level := "DEBUG",
          formatter := "standard",
          stream := some "sys.stdout" })],
    loggers :=
      [("",
        { handlers := ["rotating_file", "console"],
          level := "DEBUG",
          propagate := false }),
       ("urllib3",
        { level := "WARNING",
          propagate := false })] }

/-- The numeric values of the standard logging levels of the host logging
facade (DEBUG 10, INFO 20, WARNING 30, ERROR 40, CRITICAL 50). -/
def levelNum : String → Nat
  | "DEBUG" => 10
  | "INFO" => 20
  | "WARNING" => 30
  | "ERROR" => 40
  | "CRITICAL" => 50
  | _ => 0

/-- The handlers of the root logger that a record of numeric severity
`sev` reaches, per the host logging facade's filtering: the root logger
accepts the record only when `sev` is at least its level, and each attached
handler emits it only when `sev` is at least the handler's level. -/
def handlersReaching (cfg : LoggingConfig) (sev : Nat) : List String :=
  match (cfg.loggers.filter fun p => p.1 = "").head? with
  | none => []
  | some root =>
      if levelNum root.2.level ≤ sev then
        root.2.handlers.filter fun hname =>
          match (cfg.handlers.filter fun p => p.1 = hname).head? with
          | none => false
          | some h => levelNum h.2.level ≤ sev
      else []

/-- Filesystem oracle for `get_log_dir`: the sets of existing directories
and regular files, and the paths where creation is denied. -/
structure FS where
  dirs : List String
  files : List String
  denied : List String
deriving DecidableEq

/-- Filesystem errors that `pathlib.Path.mkdir` can raise. -/
inductive OSErr where
  | permission (path : String)
  | fileExists (path : String)
  | generic (msg : String)
deriving DecidableEq, Repr

/-- `path.mkdir(parents=True, exist_ok=True)` as called at
logging_setup.py line 54: raises `PermissionError` when creation is denied,
raises `FileExistsError` when the path exists as a non-directory, succeeds
without error when the directory already exists (`exist_ok=True`), and
otherwise creates the directory. -/
def mkdirParentsExistOk (fs : FS) (path : String) : Except OSErr FS :=
  if path ∈ fs.denied then .error (.permission path)
  else if path ∈ fs.files then .error (.fileExists path)
  else if path ∈ fs.dirs then .ok fs
  else .ok { fs with dirs := path :: fs.dirs }

/-- The logging-setup failure: `LoggingSetupError` wrapping its cause. -/
inductive LogExc where
  | loggingSetup (msg : String) (cause : OSErr)
deriving DecidableEq, Repr

/-- Printed form of a filesystem error, for the interpolated message. -/
def OSErr.text : OSErr → String
  | .permission p => "Permission denied: " ++ p
  | .fileExists p => "File exists: " ++ p
  | .generic m => m

/-- `get_log_dir(project_root)` (logging_setup.py lines 35-59): join the
root with `LOG_DIR_NAME`, create the directory (parents allowed, existing
directory accepted), and return it; `PermissionError`, `FileExistsError`
and `OSError` are caught and re-raised as `LoggingSetupError` wrapping the
cause.  The `project_root is None` default (derived from `__file__`) is
outside the embedding; the caller supplies the root. -/
def get_log_dir (fs : FS) (project_root : String) : Except LogExc (String × FS) :=
  let log_dir := project_root ++ "/" ++ LOG_DIR_NAME
  match mkdirParentsExistOk fs log_dir with
  | .ok fs2 => .ok (log_dir, fs2)
  | .error e =>
      .error (.loggingSetup ("No se pudo crear el directorio de logs: " ++ e.text) e)

/-! ## Theorems -/

/-- Characterization of a successful `start` from a fresh instance: every
external call succeeded, the driver and service handles are installed, and
the trace is the success trace (no warning). -/
theorem start_ok_fresh (s : Scraper) (env : Env) (d : Driver) (s1 : Scraper)
    (tr1 : List Event) (h0 : s.driver = none)
    (h : s.start env = (.ok d, s1, tr1)) :
    env.serviceOutcome = .ok () ∧ env.chromeOutcome = .ok d ∧
    env.waitOutcome = .ok () ∧
    s1 = { s with driver := some d,
                  service := some { executable_path := s.driver_path } } ∧
    tr1 = [.serviceInit, .chromeInit, .logInfo "Navegador iniciado con éxito."] := by
  obtain ⟨sp, hl, iw, dr, sv⟩ := s
  simp only at h0
  subst h0
  obtain ⟨svcO, chrO, waitO, quitO⟩ := env
  rcases svcO with e | ⟨⟩
  · cases e <;>
      simp [Scraper.start, Scraper.configure_service] at h
  · rcases chrO with e | d2
    · cases e <;>
        rcases quitO with e2 | ⟨⟩ <;>
        simp [Scraper.start, Scraper.configure_service, Scraper.stop] at h
    · rcases waitO with e | ⟨⟩
      · rcases quitO with e2 | ⟨⟩
        · cases e <;> cases e2 <;>
            simp [Scraper.start, Scraper.configure_service, Scraper.stop] at h
        · cases e <;>
            simp [Scraper.start, Scraper.configure_service, Scraper.stop] at h
      · simp [Scraper.start, Scraper.configure_service] at h
        obtain ⟨h1, h2, h3⟩ := h
        subst h1
        exact ⟨rfl, rfl, rfl, h2.symm, h3.symm⟩

/-- Claim C1: `stop()` with no live driver handle is a no-op; with a live
handle it always clears both the driver handle and the service reference,
both when the underlying `quit()` succeeds and when it fails, and when
`quit()` fails with the driver library's exception a `DriverShutdownError`
wrapping the cause is raised. -/
theorem c1_stop_clears (s : Scraper) (q : Except PyExc Unit) :
    (s.driver = none → s.stop q = (.ok (), s, [.stopCall])) ∧
    (s.driver ≠ none →
      (s.stop q).2.1.driver = none ∧ (s.stop q).2.1.service = none ∧
      (q = .ok () → (s.stop q).1 = .ok ()) ∧
      (∀ m, q = .error (.webDriver m) →
        (s.stop q).1 =
          .error (.driverShutdown ("Error al cerrar el navegador: " ++ m)
            (.webDriver m)))) := by
  obtain ⟨sp, hl, iw, dr, sv⟩ := s
  rcases dr with _ | d
  · exact ⟨fun _ => rfl, fun hc => absurd rfl hc⟩
  · refine ⟨fun hc => by simp at hc, fun _ => ?_⟩
    rcases q with e | ⟨⟩
    · cases e <;> simp [Scraper.stop]
    · simp [Scraper.stop]

/-- Witness for C1: a live instance whose `quit()` fails ends with both
handles cleared and a `DriverShutdownError` wrapping the cause. -/
theorem c1_stop_clears_witness :
    ((Scraper.mk none false 10 (some 0) (some { executable_path := none })).stop
        (.error (.webDriver "boom"))).2.1.driver = none ∧
    ((Scraper.mk none false 10 (some 0) (some { executable_path := none })).stop
        (.error (.webDriver "boom"))).2.1.service = none ∧
    ((Scraper.mk none false 10 (some 0) (some { executable_path := none })).stop
        (.error (.webDriver "boom"))).1 =
      .error (.driverShutdown ("Error al cerrar el navegador: " ++ "boom")
        (.webDriver "boom")) := by
  have h := (c1_stop_clears
    (Scraper.mk none false 10 (some 0) (some { executable_path := none }))
    (.error (.webDriver "boom"))).2 (by simp)
  exact ⟨h.1, h.2.1, h.2.2.2 "boom" rfl⟩

/-- Claim C4: after a successful `start()`, a second `start()` (under any
environment) returns the very same handle and state, performs no external
construction calls, and its trace is exactly one warning; the first call
emitted no warning. -/
theorem c4_start_idempotent (s : Scraper) (env env2 : Env) (d : Driver)
    (s1 : Scraper) (tr1 : List Event) (h0 : s.driver = none)
    (h : s.start env = (.ok d, s1, tr1)) :
    countWarnings tr1 = 0 ∧
    s1.start env2 = (.ok d, s1, [.logWarning "El navegador ya está iniciado."]) ∧
    countWarnings [Event.logWarning "El navegador ya está iniciado."] = 1 ∧
    Event.serviceInit ∉ [Event.logWarning "El navegador ya está iniciado."] ∧
    Event.chromeInit ∉ [Event.logWarning "El navegador ya está iniciado."] := by
  obtain ⟨-, -, -, hs1, htr⟩ := start_ok_fresh s env d s1 tr1 h0 h
  subst hs1
  subst htr
  refine ⟨by simp [countWarnings], ?_, by simp [countWarnings], by simp, by simp⟩
  simp [Scraper.start]

/-- Witness for C4: from a fresh instance in an all-successful environment,
the second `start` returns the same handle with exactly one warning. -/
theorem c4_start_idempotent_witness :
    countWarnings [Event.serviceInit, Event.chromeInit,
      Event.logInfo "Navegador iniciado con éxito."] = 0 ∧
    (Scraper.mk none false 10 (some 7)
        (some { executable_path := none })).start ⟨.ok (), .ok 7, .ok (), .ok ()⟩ =
      (.ok 7,
       Scraper.mk none false 10 (some 7) (some { executable_path := none }),
       [.logWarning "El navegador ya está iniciado."]) ∧
    countWarnings [Event.logWarning "El navegador ya está iniciado."] = 1 := by
  have h := c4_start_idempotent (Scraper.mk none false 10 none none)
    ⟨.ok (), .ok 7, .ok (), .ok ()⟩ ⟨.ok (), .ok 7, .ok (), .ok ()⟩ 7
    (Scraper.mk none false 10 (some 7) (some { executable_path := none }))
    [.serviceInit, .chromeInit, .logInfo "Navegador iniciado con éxito."]
    rfl rfl
  exact ⟨h.1, h.2.1, h.2.2.1⟩

/-- Claim C5: the constructed options contain the headless flag and the
GPU-disable flag exactly when headless mode was requested at construction,
neither otherwise, and always contain the three fixed flags. -/
theorem c5_options_flags (path : Option String) (hl : Bool) (w : ℚ) :
    (((Scraper.init path hl w).configure_options.headless = true ∧
      "--disable-gpu" ∈ (Scraper.init path hl w).configure_options.arguments) ↔
        hl = true) ∧
    (hl = false →
      (Scraper.init path hl w).configure_options.headless = false ∧
      "--disable-gpu" ∉ (Scraper.init path hl w).configure_options.arguments) ∧
    "--disable-infobars" ∈ (Scraper.init path hl w).configure_options.arguments ∧
    "--disable-dev-shm-usage" ∈ (Scraper.init path hl w).configure_options.arguments ∧
    "--no-sandbox" ∈ (Scraper.init path hl w).configure_options.arguments := by
  cases hl <;>
    simp [Scraper.init, Scraper.configure_options, Options.init, Options.add_argument]

/-- Witness for C5: with headless requested, the options carry the headless
flag and the GPU flag; the fixed flags are present. -/
theorem c5_options_flags_witness :
    ((Scraper.init none true 10).configure_options.headless = true ∧
      "--disable-gpu" ∈ (Scraper.init none true 10).configure_options.arguments) ∧
    "--disable-infobars" ∈ (Scraper.init none true 10).configure_options.arguments := by
  have h := c5_options_flags none true 10
  exact ⟨h.1.mpr rfl, h.2.2.1⟩

/-- Counterexample for claim C2 as stated: with a live driver, a scope body
that raised, and a `quit()` that fails, the exit path propagates the
`DriverShutdownError` instead of the body's exception, and the body's
exception is never logged — so "the original exception is logged and
rethrown to the caller" fails. -/
theorem c2_exit_counterexample :
    (withExit (Scraper.mk none false 10 (some 0) none)
        (.error (.webDriver "q")) (some (.other "boom"))).1 ≠
      some (.other "boom") ∧
    Event.logError "Excepción en el bloque with" ∉
      (withExit (Scraper.mk none false 10 (some 0) none)
        (.error (.webDriver "q")) (some (.other "boom"))).2.2 := by
  constructor
  · simp [withExit, Scraper.exitScope, Scraper.stop]
  · simp [withExit, Scraper.exitScope, Scraper.stop]

/-- Claim C2 (amended): exiting the scope invokes `stop()` exactly once and
`__exit__` never returns `True` (never suppresses); when the teardown
`stop()` succeeds, the body's exception is logged and is exactly what
propagates to the caller; when the teardown `stop()` itself fails, the
teardown's exception propagates instead of the body's. -/
theorem c2_exit_amended (s : Scraper) (q : Except PyExc Unit)
    (exc : Option PyExc) :
    countStopCalls (s.exitScope q exc).2.2 = 1 ∧
    (s.exitScope q exc).1 ≠ .ok true ∧
    ((s.stop q).1 = .ok () →
      (withExit s q exc).1 = exc ∧
      (∀ e, exc = some e →
        Event.logError "Excepción en el bloque with" ∈ (s.exitScope q exc).2.2)) ∧
    (∀ e2, (s.stop q).1 = .error e2 → (withExit s q exc).1 = some e2) := by
  obtain ⟨sp, hl, iw, dr, sv⟩ := s
  rcases dr with _ | d <;> rcases q with e | ⟨⟩ <;> rcases exc with _ | ex <;>
    first
    | (cases e <;>
        simp [Scraper.exitScope, withExit, Scraper.stop, countStopCalls])
    | simp [Scraper.exitScope, withExit, Scraper.stop, countStopCalls]

/-- Witness for the amended C2: live driver, successful teardown, body
exception present — `stop` is invoked once, the body exception propagates
and is logged. -/
theorem c2_exit_amended_witness :
    countStopCalls ((Scraper.mk none false 10 (some 0) none).exitScope
      (.ok ()) (some (.other "b"))).2.2 = 1 ∧
    (withExit (Scraper.mk none false 10 (some 0) none)
      (.ok ()) (some (.other "b"))).1 = some (.other "b") ∧
    Event.logError "Excepción en el bloque with" ∈
      ((Scraper.mk none false 10 (some 0) none).exitScope
        (.ok ()) (some (.other "b"))).2.2 := by
  have h := c2_exit_amended (Scraper.mk none false 10 (some 0) none)
    (.ok ()) (some (.other "b"))
  have h3 := h.2.2.1 (by simp [Scraper.stop])
  exact ⟨h.1, h3.1, h3.2 (.other "b") rfl⟩

/-- Counterexample for claim C3 as stated: when the service configuration
fails with the driver library's exception, `start()` raises the
`DriverInitializationError` wrapping the cause but never invokes `stop()`
— the error raised inside `_configure_service` is not a
`WebDriverException`, so the cleanup path of `start` is skipped. -/
theorem c3_start_counterexample :
    ((Scraper.init none false 10).start
        ⟨.error (.webDriver "svc"), .ok 0, .ok (), .ok ()⟩).1 =
      .error (.driverInit ("Error al configurar ChromeService: " ++ "svc")
        (.webDriver "svc")) ∧
    Event.stopCall ∉
      ((Scraper.init none false 10).start
        ⟨.error (.webDriver "svc"), .ok 0, .ok (), .ok ()⟩).2.2 := by
  constructor
  · rfl
  · simp [Scraper.init, Scraper.start, Scraper.configure_service]

/-- Claim C3 (amended): for failures signalled by the driver library's
exception, `start()` raises a `DriverInitializationError` wrapping the
cause in all three phases; the cleanup `stop()` is invoked for failures of
driver construction and of applying the implicit wait (assuming the
cleanup's own `quit()` does not fail), but not for service-configuration
failures, whose error is raised from inside `_configure_service`. -/
theorem c3_start_failure_amended (s : Scraper) (env : Env) (m : String)
    (h0 : s.driver = none) :
    (env.serviceOutcome = .error (.webDriver m) →
      (s.start env).1 =
        .error (.driverInit ("Error al configurar ChromeService: " ++ m)
          (.webDriver m)) ∧
      Event.stopCall ∉ (s.start env).2.2) ∧
    (env.serviceOutcome = .ok () → env.chromeOutcome = .error (.webDriver m) →
      (s.start env).1 =
        .error (.driverInit ("Error al iniciar el navegador: " ++ m)
          (.webDriver m)) ∧
      Event.stopCall ∈ (s.start env).2.2) ∧
    (∀ d, env.serviceOutcome = .ok () → env.chromeOutcome = .ok d →
      env.waitOutcome = .error (.webDriver m) → env.quitOutcome = .ok () →
      (s.start env).1 =
        .error (.driverInit ("Error al iniciar el navegador: " ++ m)
          (.webDriver m)) ∧
      Event.stopCall ∈ (s.start env).2.2) := by
  obtain ⟨sp, hl, iw, dr, sv⟩ := s
  simp only at h0
  subst h0
  obtain ⟨svcO, chrO, waitO, quitO⟩ := env
  refine ⟨?_, ?_, ?_⟩
  · intro h
    subst h
    simp [Scraper.start, Scraper.configure_service]
  · intro h1 h2
    subst h1
    subst h2
    simp [Scraper.start, Scraper.configure_service, Scraper.stop]
  · intro d h1 h2 h3 h4
    subst h1
    subst h2
    subst h3
    subst h4
    simp [Scraper.start, Scraper.configure_service, Scraper.stop]

/-- Witness for the amended C3: a failure while applying the implicit wait
(cleanup quit succeeding) yields `DriverInitializationError` wrapping the
cause, with `stop()` invoked. -/
theorem c3_start_failure_amended_witness :
    ((Scraper.init none false 10).start
        ⟨.ok (), .ok 5, .error (.webDriver "w"), .ok ()⟩).1 =
      .error (.driverInit ("Error al iniciar el navegador: " ++ "w")
        (.webDriver "w")) ∧
    Event.stopCall ∈
      ((Scraper.init none false 10).start
        ⟨.ok (), .ok 5, .error (.webDriver "w"), .ok ()⟩).2.2 :=
  (c3_start_failure_amended (Scraper.init none false 10)
    ⟨.ok (), .ok 5, .error (.webDriver "w"), .ok ()⟩ "w" rfl).2.2
    5 rfl rfl rfl rfl

/-- `stop` never changes the configuration fields. -/
theorem stop_preserves_config (s : Scraper) (q : Except PyExc Unit) :
    (s.stop q).2.1.driver_path = s.driver_path ∧
    (s.stop q).2.1.headless = s.headless ∧
    (s.stop q).2.1.implicit_wait = s.implicit_wait := by
  obtain ⟨sp, hl, iw, dr, sv⟩ := s
  rcases dr with _ | d <;> rcases q with e | ⟨⟩ <;>
    first
    | (cases e <;> simp [Scraper.stop])
    | simp [Scraper.stop]

/-- `start` never changes the configuration fields. -/
theorem start_preserves_config (s : Scraper) (env : Env) :
    (s.start env).2.1.driver_path = s.driver_path ∧
    (s.start env).2.1.headless = s.headless ∧
    (s.start env).2.1.implicit_wait = s.implicit_wait := by
  obtain ⟨sp, hl, iw, dr, sv⟩ := s
  obtain ⟨svcO, chrO, waitO, quitO⟩ := env
  rcases dr with _ | d <;>
    rcases svcO with es | ⟨⟩ <;>
    rcases chrO with ec | d2 <;>
    rcases waitO with ew | ⟨⟩ <;>
    rcases quitO with eq2 | ⟨⟩ <;>
    (try cases es) <;> (try cases ec) <;> (try cases ew) <;> (try cases eq2) <;>
    simp [Scraper.start, Scraper.configure_service, Scraper.stop]

/-- Claim C6: over any sequence of `start` and `stop` calls in any
environments (succeeding or failing), the configuration fields set at
construction — driver path, headless flag, implicit wait — never change. -/
theorem c6_config_immutable (s : Scraper) (ops : List ScraperOp) :
    (runOps s ops).driver_path = s.driver_path ∧
    (runOps s ops).headless = s.headless ∧
    (runOps s ops).implicit_wait = s.implicit_wait := by
  induction ops generalizing s with
  | nil => exact ⟨rfl, rfl, rfl⟩
  | cons op rest ih =>
      cases op with
      | opStart env =>
          have h1 := start_preserves_config s env
          have h2 := ih ((s.start env).2.1)
          exact ⟨h2.1.trans h1.1, h2.2.1.trans h1.2.1, h2.2.2.trans h1.2.2⟩
      | opStop q =>
          have h1 := stop_preserves_config s q
          have h2 := ih ((s.stop q).2.1)
          exact ⟨h2.1.trans h1.1, h2.2.1.trans h1.2.1, h2.2.2.trans h1.2.2⟩

/-- Claim C10: a startup failure that is not the driver library's
`WebDriverException` propagates from `start()` unchanged — it is not
wrapped into a `DriverInitializationError` and the cleanup `stop()` is not
invoked — in each of the three phases. -/
theorem c10_non_webdriver_propagates (s : Scraper) (env : Env) (e : PyExc)
    (h0 : s.driver = none) (hnw : ∀ m, e ≠ .webDriver m) :
    (env.serviceOutcome = .error e →
      (s.start env).1 = .error e ∧ Event.stopCall ∉ (s.start env).2.2) ∧
    (env.serviceOutcome = .ok () → env.chromeOutcome = .error e →
      (s.start env).1 = .error e ∧ Event.stopCall ∉ (s.start env).2.2) ∧
    (∀ d, env.serviceOutcome = .ok () → env.chromeOutcome = .ok d →
      env.waitOutcome = .error e →
      (s.start env).1 = .error e ∧ Event.stopCall ∉ (s.start env).2.2) := by
  obtain ⟨sp, hl, iw, dr, sv⟩ := s
  simp only at h0
  subst h0
  obtain ⟨svcO, chrO, waitO, quitO⟩ := env
  refine ⟨?_, ?_, ?_⟩
  · intro h
    subst h
    cases e
    case webDriver m => exact absurd rfl (hnw m)
    all_goals simp [Scraper.start, Scraper.configure_service]
  · intro h1 h2
    subst h1
    subst h2
    cases e
    case webDriver m => exact absurd rfl (hnw m)
    all_goals simp [Scraper.start, Scraper.configure_service]
  · intro d h1 h2 h3
    subst h1
    subst h2
    subst h3
    cases e
    case webDriver m => exact absurd rfl (hnw m)
    all_goals simp [Scraper.start, Scraper.configure_service]

/-- Witness for C10: a non-`WebDriverException` during service
configuration propagates unchanged and `stop()` is never invoked. -/
theorem c10_non_webdriver_propagates_witness :
    ((Scraper.init none false 10).start
        ⟨.error (.other "ex"), .ok 0, .ok (), .ok ()⟩).1 = .error (.other "ex") ∧
    Event.stopCall ∉
      ((Scraper.init none false 10).start
        ⟨.error (.other "ex"), .ok 0, .ok (), .ok ()⟩).2.2 :=
  (c10_non_webdriver_propagates (Scraper.init none false 10)
    ⟨.error (.other "ex"), .ok 0, .ok (), .ok ()⟩ (.other "ex") rfl
    (by intro m h; exact PyExc.noConfusion h)).1 rfl

/-- Claim C7: for every log file path the generated configuration has
exactly two handlers — the size-based rotating file handler with maximum
size `10 * 1024 * 1024` bytes, backup count 5, deferred file open and
UTF-8 encoding, and the console stream handler — and exactly two logger
entries: the root logger at DEBUG and `urllib3` suppressed to WARNING. -/
theorem c7_logging_config_shape (p : String) :
    (get_logging_config p).handlers.length = 2 ∧
    (get_logging_config p).loggers.length = 2 ∧
    (get_logging_config p).handlers.lookup "rotating_file" =
      some { cls := "logging.handlers.RotatingFileHandler",
             level := "INFO",
             formatter := "standard",
             filename := some p,
             encoding := some "utf-8",
             maxBytes := some (10 * 1024 * 1024),
             backupCount := some 5,
             delay := some true } ∧
    (get_logging_config p).handlers.lookup "console" =
      some { cls := "logging.StreamHandler",
             level := "DEBUG",
             formatter := "standard",
             stream := some "sys.stdout" } ∧
    (get_logging_config p).loggers.lookup "" =
      some { handlers := ["rotating_file", "console"],
             level := "DEBUG",
             propagate := false } ∧
    (get_logging_config p).loggers.lookup "urllib3" =
      some { level := "WARNING", propagate := false } := by
  refine ⟨rfl, rfl, ?_, ?_, rfl, ?_⟩ <;> rfl

/-- Claim C8: creating the log directory is idempotent — when a call to
`get_log_dir` succeeds, repeating it on the resulting filesystem succeeds
with the same directory and no change (the existing directory is accepted)
— and a call fails only when creation is denied (permission error) or the
path exists as a non-directory (filesystem error), in which case the
raised error is the setup error wrapping the cause. -/
theorem c8_log_dir_idempotent (fs : FS) (root : String) :
    (∀ d fs2, get_log_dir fs root = .ok (d, fs2) →
      get_log_dir fs2 root = .ok (d, fs2)) ∧
    (∀ e, get_log_dir fs root = .error e →
      (root ++ "/" ++ LOG_DIR_NAME ∈ fs.denied ∨
       root ++ "/" ++ LOG_DIR_NAME ∈ fs.files) ∧
      ∃ cause, e = .loggingSetup
        ("No se pudo crear el directorio de logs: " ++ cause.text) cause) := by
  constructor
  · intro d fs2 h
    by_cases hd : root ++ "/" ++ LOG_DIR_NAME ∈ fs.denied
    · simp [get_log_dir, mkdirParentsExistOk, hd] at h
    · by_cases hf : root ++ "/" ++ LOG_DIR_NAME ∈ fs.files
      · simp [get_log_dir, mkdirParentsExistOk, hd, hf] at h
      · by_cases he : root ++ "/" ++ LOG_DIR_NAME ∈ fs.dirs
        · simp [get_log_dir, mkdirParentsExistOk, hd, hf, he] at h
          obtain ⟨h1, h2⟩ := h
          subst h2
          subst h1
          simp [get_log_dir, mkdirParentsExistOk, hd, hf, he]
        · simp [get_log_dir, mkdirParentsExistOk, hd, hf, he] at h
          obtain ⟨h1, h2⟩ := h
          subst h2
          subst h1
          simp [get_log_dir, mkdirParentsExistOk, hd, hf]
  · intro e h
    by_cases hd : root ++ "/" ++ LOG_DIR_NAME ∈ fs.denied
    · refine ⟨Or.inl hd, .permission (root ++ "/" ++ LOG_DIR_NAME), ?_⟩
      simp [get_log_dir, mkdirParentsExistOk, hd] at h
      exact h.symm
    · by_cases hf : root ++ "/" ++ LOG_DIR_NAME ∈ fs.files
      · refine ⟨Or.inr hf, .fileExists (root ++ "/" ++ LOG_DIR_NAME), ?_⟩
        simp [get_log_dir, mkdirParentsExistOk, hd, hf] at h
        exact h.symm
      · by_cases he : root ++ "/" ++ LOG_DIR_NAME ∈ fs.dirs <;>
          simp [get_log_dir, mkdirParentsExistOk, hd, hf, he] at h

/-- Witness for C8: on an empty filesystem the directory is created, and
repeating the call on the result succeeds unchanged. -/
theorem c8_log_dir_idempotent_witness :
    get_log_dir (FS.mk [] [] []) "proj" =
      .ok ("proj/logs", FS.mk ["proj/logs"] [] []) ∧
    get_log_dir (FS.mk ["proj/logs"] [] []) "proj" =
      .ok ("proj/logs", FS.mk ["proj/logs"] [] []) := by
  refine ⟨by rfl, ?_⟩
  exact (c8_log_dir_idempotent (FS.mk [] [] []) "proj").1
    "proj/logs" (FS.mk ["proj/logs"] [] []) (by rfl)

/-- Claim C9: the rotating file handler is level-filtered at INFO and the
console handler at DEBUG, so a record whose severity the DEBUG-level root
logger accepts but which lies below INFO reaches only the console
handler. -/
theorem c9_debug_only_console (p : String) (sev : Nat)
    (h1 : 10 ≤ sev) (h2 : sev < 20) :
    ((get_logging_config p).handlers.lookup "rotating_file").map
      HandlerCfg.level = some "INFO" ∧
    ((get_logging_config p).handlers.lookup "console").map
      HandlerCfg.level = some "DEBUG" ∧
    handlersReaching (get_logging_config p) sev = ["console"] := by
  refine ⟨rfl, rfl, ?_⟩
  simp only [handlersReaching, get_logging_config, levelNum]
  simp [h1, Nat.not_le.mpr h2, levelNum]

/-- Witness for C9: a DEBUG record (severity 10) reaches only the console
handler. -/
theorem c9_debug_only_console_witness :
    handlersReaching (get_logging_config "f.log") 10 = ["console"] :=
  (c9_debug_only_console "f.log" 10 (by decide) (by decide)).2.2
